import Mathlib

/-! gluster_exporter: the command-execution-and-normalisation pipeline.

A shallow embedding of `gluster_client.go`.  The Go functions become Lean
functions that pass an explicit `World` (the observable effects: the child
processes spawned, the decoder calls made, the log events emitted).  What the
file does not contain is taken as a parameter:

* the record types of package `structs` and their zero values (`Schema`);
* the global `GlusterCmd`, the behaviour of the spawned child process and the
  `structs.*Unmarshall` decoders (`Env`).

Go's `(value, error)` results are pairs whose second component is an
`Option GoError` (`none` is Go's `nil`).  Go's `int` is the 64 bit signed
integer, an `Int` reduced with `wrapInt` after each addition.
-/

namespace GlusterExporter

/-! ## Errors, bytes, logging -/

/-- The content of a `bytes.Buffer`. -/
abbrev Bytes := List Nat

/-- The two sentinel errors a `*strconv.NumError` wraps. -/
inductive NumErrKind
  | ErrSyntax
  | ErrRange
  deriving DecidableEq, Repr

/-- A Go `error` value: the `*strconv.NumError` built by `strconv.Atoi`, or an
error value made outside this file (by `os/exec` or by a decoder), identified
by its text. -/
inductive GoError
  | NumError (Func : String) (Num : String) (Err : NumErrKind)
  | foreign (text : String)
  deriving DecidableEq, Repr

/-- The zerolog levels the file uses. -/
inductive LogLevel
  | Debug
  | Error
  deriving DecidableEq, Repr

/-- An operand handed to `Msgf`.  A record printed with `%+v` is kept as the
name of the printed variable: its rendering depends on type declarations that
are not in this file. -/
inductive LogArg
  | str (s : String)
  | strs (ss : List String)
  | err (e : GoError)
  | int (n : Int)
  | value (ident : String)
  deriving DecidableEq, Repr

/-- One emitted log event: `log.<level>().Msgf(format, args...)`. -/
structure LogEvent where
  level : LogLevel
  format : String
  args : List LogArg
  deriving DecidableEq, Repr

/-- One child process: the program and its argument vector. -/
structure Invocation where
  name : String
  argv : List String
  deriving DecidableEq, Repr

/-- One decoder call: which `structs.*Unmarshall` function, on which bytes. -/
structure DecodeCall where
  decoder : String
  input : Bytes
  deriving DecidableEq, Repr

/-- The observable effects of the calls made so far, oldest first. -/
structure World where
  procs : List Invocation
  decodes : List DecodeCall
  logs : List LogEvent
  deriving DecidableEq, Repr

/-- The world before anything has run. -/
def World.empty : World := ⟨[], [], []⟩

/-- Record a spawned child process. -/
def World.spawn (w : World) (name : String) (argv : List String) : World :=
  { w with procs := w.procs ++ [⟨name, argv⟩] }

/-- Record a decoder call. -/
def World.decode (w : World) (decoder : String) (input : Bytes) : World :=
  { w with decodes := w.decodes ++ [⟨decoder, input⟩] }

/-- Record an emitted log event. -/
def World.log (w : World) (level : LogLevel) (format : String) (args : List LogArg) : World :=
  { w with logs := w.logs ++ [⟨level, format, args⟩] }

/-! ## Package `structs` -/

/-- The record types of package `structs` that the operations return or
project, their zero values (`structs.T{}`) and the field selections the file
performs on the decoded wrappers (`.VolList`, `.PeerStatus`, `.VolProfile`).
Their declarations are outside this file, so they are parameters. -/
structure Schema where
  VolumeInfoXML : Type
  VolumeListXML : Type
  VolList : Type
  PeerStatusXML : Type
  PeerStatus : Type
  VolumeProfileXML : Type
  VolProfile : Type
  VolumeStatusXML : Type
  VolumeQuotaXML : Type
  zeroVolumeInfoXML : VolumeInfoXML
  zeroVolList : VolList
  zeroPeerStatus : PeerStatus
  zeroVolProfile : VolProfile
  zeroVolumeStatusXML : VolumeStatusXML
  zeroVolumeQuotaXML : VolumeQuotaXML
  getVolList : VolumeListXML → VolList
  getPeerStatus : PeerStatusXML → PeerStatus
  getVolProfile : VolumeProfileXML → VolProfile

/-- One `brick` of a heal-info document; `NumberOfEntries` is the only field
the file reads. -/
structure BrickHealInfo where
  NumberOfEntries : String
  deriving DecidableEq, Repr

/-- The `Bricks` member of `HealInfo`: the ordered `Brick` slice. -/
structure HealBricks where
  Brick : List BrickHealInfo
  deriving DecidableEq, Repr

/-- The `HealInfo` member of the heal-info document. -/
structure HealInfo where
  Bricks : HealBricks
  deriving DecidableEq, Repr

/-- The decoded heal-info document, along the path
`healInfo.HealInfo.Bricks.Brick` that the file walks. -/
structure VolumeHealInfoXML where
  HealInfo : HealInfo
  deriving DecidableEq, Repr

/-- What the file uses from outside: the global `GlusterCmd`, the outcome of
running a child process with standard output captured (`Run name argv` is the
captured buffer and the error of `exec.Cmd.Run`), and the seven decoders of
package `structs`, each returning its record and an error. -/
structure Env (S : Schema) where
  GlusterCmd : String
  Run : String → List String → Bytes × Option GoError
  VolumeInfoXMLUnmarshall : Bytes → S.VolumeInfoXML × Option GoError
  VolumeListXMLUnmarshall : Bytes → S.VolumeListXML × Option GoError
  PeerStatusXMLUnmarshall : Bytes → S.PeerStatusXML × Option GoError
  VolumeProfileGvInfoCumulativeXMLUnmarshall : Bytes → S.VolumeProfileXML × Option GoError
  VolumeStatusAllDetailXMLUnmarshall : Bytes → S.VolumeStatusXML × Option GoError
  VolumeHealInfoXMLUnmarshall : Bytes → VolumeHealInfoXML × Option GoError
  VolumeQuotaListXMLUnmarshall : Bytes → S.VolumeQuotaXML × Option GoError

/-! ## Go's `int` and `strconv.Atoi` -/

/-- The width of Go's `int` (`strconv.IntSize`) on 64 bit targets. -/
def intSize : Nat := 64

/-- The largest `int`. -/
def maxInt : Int := 2 ^ (intSize - 1) - 1

/-- The smallest `int`. -/
def minInt : Int := -(2 ^ (intSize - 1))

/-- Two's-complement reduction of an integer to the range of `int`: what Go's
`+` on `int` yields for the exact result `x`. -/
def wrapInt (x : Int) : Int :=
  (x + 2 ^ (intSize - 1)) % 2 ^ intSize - 2 ^ (intSize - 1)

/-- The largest `uint64`. -/
def maxUint64 : Nat := 2 ^ 64 - 1

/-- The digit loop of `strconv.ParseUint(s, 10, 0)`, with `n` the value read so
far.  A byte that is not a decimal digit is `ErrSyntax` with value 0; a value
that leaves `uint64` is `ErrRange` with value `maxUint64`, reported as soon as
it is seen, so before any later bad byte.  Go tests the second overflow as
`n1 < n || n1 > maxVal` on the wrapped sum, which is `n * 10 + d > maxUint64`
on the exact one because `n * 10` does not overflow below the cutoff. -/
def parseUintLoop : List Char → Nat → Nat × Option NumErrKind
  | [], n => (n, none)
  | c :: cs, n =>
    if c.isDigit = false then (0, some NumErrKind.ErrSyntax)
    else if n ≥ maxUint64 / 10 + 1 then (maxUint64, some NumErrKind.ErrRange)
    else if n * 10 + (c.toNat - 48) > maxUint64 then (maxUint64, some NumErrKind.ErrRange)
    else parseUintLoop cs (n * 10 + (c.toNat - 48))

/-- Go's `strconv.ParseUint(s, 10, 0)`: the empty string is `ErrSyntax`. -/
def ParseUint (cs : List Char) : Nat × Option NumErrKind :=
  if cs = [] then (0, some NumErrKind.ErrSyntax) else parseUintLoop cs 0

/-- Go's `strconv.Atoi`, which is `ParseInt(s, 10, 0)` converted to `int` with
the error's `Func` set to `"Atoi"` (the fast path for short strings computes
the same result).  The empty string is `ErrSyntax`; one leading sign is picked
off and the rest goes to `ParseUint`; its `ErrSyntax` is returned with value 0;
otherwise the magnitude is checked against the range of `int`, giving
`ErrRange` with the nearest bound.  Go scans bytes where this scans
characters: a character outside `0`..`9` stands for bytes of which the first is
no digit, so the outcome is the same. -/
def Atoi (s : String) : Int × Option GoError :=
  let cs := s.data
  if cs = [] then (0, some (GoError.NumError "Atoi" s NumErrKind.ErrSyntax))
  else
    let neg := cs.head? = some '-'
    let body := if cs.head? = some '+' ∨ cs.head? = some '-' then cs.tail else cs
    match ParseUint body with
    | (_, some NumErrKind.ErrSyntax) =>
      (0, some (GoError.NumError "Atoi" s NumErrKind.ErrSyntax))
    | (un, _) =>
      let cutoff : Int := 2 ^ (intSize - 1)
      if ¬ neg ∧ (un : Int) ≥ cutoff then
        (cutoff - 1, some (GoError.NumError "Atoi" s NumErrKind.ErrRange))
      else if neg ∧ (un : Int) > cutoff then
        (-cutoff, some (GoError.NumError "Atoi" s NumErrKind.ErrRange))
      else
        (if neg then -(un : Int) else (un : Int), none)

/-! ## The command runner -/

/-- `execGlusterCommand`: append `--xml` to the caller's arguments, log the
command line at debug level, run `GlusterCmd` with that vector capturing
standard output, and return the buffer with the error of `Run`.  On an error
the caller's arguments and the error go to an error-level log event. -/
def execGlusterCommand {S : Schema} (env : Env S) (arg : List String) (w : World) :
    (Bytes × Option GoError) × World :=
  let argXML := arg ++ ["--xml"]
  let w1 := w.log LogLevel.Debug "%s %s"
    [LogArg.str env.GlusterCmd, LogArg.str (" ".intercalate argXML)]
  let w2 := w1.spawn env.GlusterCmd argXML
  match env.Run env.GlusterCmd argXML with
  | (stdoutBuffer, some err) =>
    ((stdoutBuffer, some err),
      w2.log LogLevel.Error "tried to execute %v and got error: %v"
        [LogArg.strs arg, LogArg.err err])
  | (stdoutBuffer, none) => ((stdoutBuffer, none), w2)


/-! ## The seven operations -/

/-- `ExecVolumeInfo`: run `volume info`; on a runner error return the zero
record with that error; otherwise decode and return what the decoder
returned, record and error. -/
def ExecVolumeInfo {S : Schema} (env : Env S) (w : World) :
    (S.VolumeInfoXML × Option GoError) × World :=
  let args := ["volume", "info"]
  match execGlusterCommand env args w with
  | ((_, some cmdErr), w1) => ((S.zeroVolumeInfoXML, some cmdErr), w1)
  | ((bytesBuffer, none), w1) =>
    let w2 := w1.decode "VolumeInfoXMLUnmarshall" bytesBuffer
    match env.VolumeInfoXMLUnmarshall bytesBuffer with
    | (volumeInfo, some err) =>
      ((volumeInfo, some err),
        w2.log LogLevel.Error "Something went wrong while unmarshalling xml: %v" [LogArg.err err])
    | (volumeInfo, none) =>
      ((volumeInfo, none), w2.log LogLevel.Debug "%+v" [LogArg.value "volumeInfo"])

/-- `ExecVolumeList`: run `volume list`; on a runner error return the zero
`VolList` with that error; otherwise decode and return the `VolList` member of
the decoded document with the decoder's error. -/
def ExecVolumeList {S : Schema} (env : Env S) (w : World) :
    (S.VolList × Option GoError) × World :=
  let args := ["volume", "list"]
  match execGlusterCommand env args w with
  | ((_, some cmdErr), w1) => ((S.zeroVolList, some cmdErr), w1)
  | ((bytesBuffer, none), w1) =>
    let w2 := w1.decode "VolumeListXMLUnmarshall" bytesBuffer
    match env.VolumeListXMLUnmarshall bytesBuffer with
    | (volumeList, some err) =>
      ((S.getVolList volumeList, some err),
        w2.log LogLevel.Error "Something went wrong while unmarshalling xml: %v" [LogArg.err err])
    | (volumeList, none) =>
      ((S.getVolList volumeList, none), w2.log LogLevel.Debug "%+v" [LogArg.value "volumeList"])

/-- `ExecPeerStatus`: run `peer status`; on a runner error return the zero
`PeerStatus` with that error; otherwise decode and return the `PeerStatus`
member of the decoded document with the decoder's error. -/
def ExecPeerStatus {S : Schema} (env : Env S) (w : World) :
    (S.PeerStatus × Option GoError) × World :=
  let args := ["peer", "status"]
  match execGlusterCommand env args w with
  | ((_, some cmdErr), w1) => ((S.zeroPeerStatus, some cmdErr), w1)
  | ((bytesBuffer, none), w1) =>
    let w2 := w1.decode "PeerStatusXMLUnmarshall" bytesBuffer
    match env.PeerStatusXMLUnmarshall bytesBuffer with
    | (peerStatus, some err) =>
      ((S.getPeerStatus peerStatus, some err),
        w2.log LogLevel.Error "Something went wrong while unmarshalling xml: %v" [LogArg.err err])
    | (peerStatus, none) =>
      ((S.getPeerStatus peerStatus, none), w2.log LogLevel.Debug "%+v" [LogArg.value "peerStatus"])

/-- `ExecVolumeProfileGvInfoCumulative`: run `volume profile <name> info
cumulative`; on a runner error return the zero `VolProfile` with that error;
otherwise decode and return the `VolProfile` member of the decoded document
with the decoder's error. -/
def ExecVolumeProfileGvInfoCumulative {S : Schema} (env : Env S) (volumeName : String)
    (w : World) : (S.VolProfile × Option GoError) × World :=
  let args := ["volume", "profile", volumeName, "info", "cumulative"]
  match execGlusterCommand env args w with
  | ((_, some cmdErr), w1) => ((S.zeroVolProfile, some cmdErr), w1)
  | ((bytesBuffer, none), w1) =>
    let w2 := w1.decode "VolumeProfileGvInfoCumulativeXMLUnmarshall" bytesBuffer
    match env.VolumeProfileGvInfoCumulativeXMLUnmarshall bytesBuffer with
    | (volumeProfile, some err) =>
      ((S.getVolProfile volumeProfile, some err),
        w2.log LogLevel.Error "Something went wrong while unmarshalling xml: %v" [LogArg.err err])
    | (volumeProfile, none) =>
      ((S.getVolProfile volumeProfile, none),
        w2.log LogLevel.Debug "%+v" [LogArg.value "volumeProfile"])

/-- `ExecVolumeStatusAllDetail`: run `volume status all detail`; on a runner
error return the zero record with that error; otherwise decode and return
what the decoder returned, record and error. -/
def ExecVolumeStatusAllDetail {S : Schema} (env : Env S) (w : World) :
    (S.VolumeStatusXML × Option GoError) × World :=
  let args := ["volume", "status", "all", "detail"]
  match execGlusterCommand env args w with
  | ((_, some cmdErr), w1) => ((S.zeroVolumeStatusXML, some cmdErr), w1)
  | ((bytesBuffer, none), w1) =>
    let w2 := w1.decode "VolumeStatusAllDetailXMLUnmarshall" bytesBuffer
    match env.VolumeStatusAllDetailXMLUnmarshall bytesBuffer with
    | (volumeStatus, some err) =>
      ((volumeStatus, some err),
        w2.log LogLevel.Error "Something went wrong while unmarshalling xml: %v" [LogArg.err err])
    | (volumeStatus, none) =>
      ((volumeStatus, none), w2.log LogLevel.Debug "%+v" [LogArg.value "volumeStatus"])

/-- The `for _, brick := range healInfo.HealInfo.Bricks.Brick` loop of
`ExecVolumeHealInfo`, with `entriesOutOfSync` the running total: the first
brick whose `NumberOfEntries` `Atoi` rejects ends the loop with `-1` and that
error; otherwise the count is added with `int` addition.  The
`log.Error().Err(err)` of the error branch builds an event and never sends it,
so nothing is logged there. -/
def healLoop : List BrickHealInfo → Int → Int × Option GoError
  | [], entriesOutOfSync => (entriesOutOfSync, none)
  | brick :: rest, entriesOutOfSync =>
    match Atoi brick.NumberOfEntries with
    | (_, some err) => (-1, some err)
    | (count, none) => healLoop rest (wrapInt (entriesOutOfSync + count))

/-- `ExecVolumeHealInfo`: run `volume heal <name> info`; on a runner error or a
decoder error return `-1` with that error (the decoder's error is handed to an
event that is never sent); otherwise log the record, run the loop from 0, and
log the total when the loop completes. -/
def ExecVolumeHealInfo {S : Schema} (env : Env S) (volumeName : String) (w : World) :
    (Int × Option GoError) × World :=
  let args := ["volume", "heal", volumeName, "info"]
  let entriesOutOfSync : Int := 0
  match execGlusterCommand env args w with
  | ((_, some cmdErr), w1) => ((-1, some cmdErr), w1)
  | ((bytesBuffer, none), w1) =>
    let w2 := w1.decode "VolumeHealInfoXMLUnmarshall" bytesBuffer
    match env.VolumeHealInfoXMLUnmarshall bytesBuffer with
    | (_, some err) => ((-1, some err), w2)
    | (healInfo, none) =>
      let w3 := w2.log LogLevel.Debug "%+v" [LogArg.value "healInfo"]
      match healLoop healInfo.HealInfo.Bricks.Brick entriesOutOfSync with
      | (_, some err) => ((-1, some err), w3)
      | (total, none) => ((total, none), w3.log LogLevel.Debug "%+v" [LogArg.int total])

/-- `ExecVolumeQuotaList`: run `volume quota <name> list`; on a runner error
return the zero record with that error; otherwise decode and return what the
decoder returned, record and error. -/
def ExecVolumeQuotaList {S : Schema} (env : Env S) (volumeName : String) (w : World) :
    (S.VolumeQuotaXML × Option GoError) × World :=
  let args := ["volume", "quota", volumeName, "list"]
  match execGlusterCommand env args w with
  | ((_, some cmdErr), w1) => ((S.zeroVolumeQuotaXML, some cmdErr), w1)
  | ((bytesBuffer, none), w1) =>
    let w2 := w1.decode "VolumeQuotaListXMLUnmarshall" bytesBuffer
    match env.VolumeQuotaListXMLUnmarshall bytesBuffer with
    | (volumeQuota, some err) =>
      ((volumeQuota, some err),
        w2.log LogLevel.Error "Something went wrong while unmarshalling xml: %v" [LogArg.err err])
    | (volumeQuota, none) =>
      ((volumeQuota, none), w2.log LogLevel.Debug "%+v" [LogArg.value "volumeQuota"])

/-! ## A concrete instance -/

/-- A schema in which every record is a sequence of text rows. -/
def sampleSchema : Schema where
  VolumeInfoXML := List String
  VolumeListXML := Nat × List String
  VolList := List String
  PeerStatusXML := Nat × List String
  PeerStatus := List String
  VolumeProfileXML := Nat × List String
  VolProfile := List String
  VolumeStatusXML := List String
  VolumeQuotaXML := List String
  zeroVolumeInfoXML := []
  zeroVolList := []
  zeroPeerStatus := []
  zeroVolProfile := []
  zeroVolumeStatusXML := []
  zeroVolumeQuotaXML := []
  getVolList := Prod.snd
  getPeerStatus := Prod.snd
  getVolProfile := Prod.snd

/-- The heal-info record with the given entry counts, in order. -/
def healRecord (entries : List String) : VolumeHealInfoXML :=
  ⟨⟨⟨entries.map BrickHealInfo.mk⟩⟩⟩

/-- An environment whose tool always exits zero printing `out`, and whose
decoders all succeed: text records hold `rows`, the heal-info record holds the
entry counts `entries`. -/
def okEnv (out : Bytes) (rows entries : List String) : Env sampleSchema where
  GlusterCmd := "gluster"
  Run := fun _ _ => (out, none)
  VolumeInfoXMLUnmarshall := fun _ => (rows, none)
  VolumeListXMLUnmarshall := fun _ => ((0, rows), none)
  PeerStatusXMLUnmarshall := fun _ => ((0, rows), none)
  VolumeProfileGvInfoCumulativeXMLUnmarshall := fun _ => ((0, rows), none)
  VolumeStatusAllDetailXMLUnmarshall := fun _ => (rows, none)
  VolumeHealInfoXMLUnmarshall := fun _ => (healRecord entries, none)
  VolumeQuotaListXMLUnmarshall := fun _ => (rows, none)

/-- An environment whose tool always fails with `e`, leaving `out` in the
buffer; its decoders would succeed. -/
def failEnv (out : Bytes) (e : GoError) : Env sampleSchema :=
  { okEnv out ["row"] ["1"] with Run := fun _ _ => (out, some e) }

/-- An environment whose tool exits zero and whose decoders all fail with `d`,
returning the partial records `rows` and `entries`. -/
def badXmlEnv (out : Bytes) (rows entries : List String) (d : GoError) : Env sampleSchema where
  GlusterCmd := "gluster"
  Run := fun _ _ => (out, none)
  VolumeInfoXMLUnmarshall := fun _ => (rows, some d)
  VolumeListXMLUnmarshall := fun _ => ((0, rows), some d)
  PeerStatusXMLUnmarshall := fun _ => ((0, rows), some d)
  VolumeProfileGvInfoCumulativeXMLUnmarshall := fun _ => ((0, rows), some d)
  VolumeStatusAllDetailXMLUnmarshall := fun _ => (rows, some d)
  VolumeHealInfoXMLUnmarshall := fun _ => (healRecord entries, some d)
  VolumeQuotaListXMLUnmarshall := fun _ => (rows, some d)

/-- An environment in which only `volume quota <name> list` exits zero,
printing `out`; every other run of the tool fails with `exit status 1`.  The
decoders succeed as in `okEnv`. -/
def quotaOnlyEnv (out : Bytes) (rows : List String) : Env sampleSchema :=
  { okEnv out rows [] with
    Run := fun _ argv =>
      if argv.take 2 = ["volume", "quota"] then (out, none)
      else ([], some (GoError.foreign "exit status 1")) }

/-! ## Decimal numerals -/

/-- The number a sequence of decimal digits denotes, most significant digit
first: the reference against which the result of `Atoi` on a numeral is
stated. -/
def decimalValue (cs : List Char) : Nat :=
  cs.foldl (fun n c => n * 10 + (c.toNat - 48)) 0

/-! ## The command runner: lemmas -/

/-- The world after the debug line and the spawn of `execGlusterCommand`. -/
def afterSpawn {S : Schema} (env : Env S) (arg : List String) (w : World) : World :=
  (w.log LogLevel.Debug "%s %s"
    [LogArg.str env.GlusterCmd, LogArg.str (" ".intercalate (arg ++ ["--xml"]))]).spawn
    env.GlusterCmd (arg ++ ["--xml"])

theorem afterSpawn_procs {S : Schema} (env : Env S) (arg : List String) (w : World) :
    (afterSpawn env arg w).procs = w.procs ++ [⟨env.GlusterCmd, arg ++ ["--xml"]⟩] := rfl

theorem afterSpawn_decodes {S : Schema} (env : Env S) (arg : List String) (w : World) :
    (afterSpawn env arg w).decodes = w.decodes := rfl

theorem execGlusterCommand_err {S : Schema} (env : Env S) (arg : List String) (w : World)
    (buf : Bytes) (e : GoError) (h : env.Run env.GlusterCmd (arg ++ ["--xml"]) = (buf, some e)) :
    execGlusterCommand env arg w =
      ((buf, some e), (afterSpawn env arg w).log LogLevel.Error
        "tried to execute %v and got error: %v" [LogArg.strs arg, LogArg.err e]) := by
  simp only [execGlusterCommand, h, afterSpawn]

theorem execGlusterCommand_ok {S : Schema} (env : Env S) (arg : List String) (w : World)
    (buf : Bytes) (h : env.Run env.GlusterCmd (arg ++ ["--xml"]) = (buf, none)) :
    execGlusterCommand env arg w = ((buf, none), afterSpawn env arg w) := by
  simp only [execGlusterCommand, h, afterSpawn]

theorem execGlusterCommand_result {S : Schema} (env : Env S) (arg : List String) (w : World) :
    (execGlusterCommand env arg w).1 = env.Run env.GlusterCmd (arg ++ ["--xml"]) := by
  rcases h : env.Run env.GlusterCmd (arg ++ ["--xml"]) with ⟨buf, _ | e⟩
  · rw [execGlusterCommand_ok env arg w buf h]
  · rw [execGlusterCommand_err env arg w buf e h]

theorem execGlusterCommand_procs {S : Schema} (env : Env S) (arg : List String) (w : World) :
    (execGlusterCommand env arg w).2.procs =
      w.procs ++ [⟨env.GlusterCmd, arg ++ ["--xml"]⟩] := by
  rcases h : env.Run env.GlusterCmd (arg ++ ["--xml"]) with ⟨buf, _ | e⟩
  · rw [execGlusterCommand_ok env arg w buf h]; rfl
  · rw [execGlusterCommand_err env arg w buf e h]; rfl

/-! ## The argument vectors -/

/-- C4: `execGlusterCommand` spawns exactly one child process, the tool
`GlusterCmd`, and its argument vector is the caller's `arg` followed by the one
element `--xml`: its length is `len(arg) + 1`, its first `len(arg)` elements
are `arg` in order and its last element is `--xml`; the call returns what that
process yields. -/
theorem execGlusterCommand_appends_xml {S : Schema} (env : Env S) (arg : List String)
    (w : World) :
    ∃ argv : List String,
      (execGlusterCommand env arg w).2.procs = w.procs ++ [⟨env.GlusterCmd, argv⟩] ∧
      (execGlusterCommand env arg w).1 = env.Run env.GlusterCmd argv ∧
      argv = arg ++ ["--xml"] ∧
      argv.length = arg.length + 1 ∧
      argv.take arg.length = arg ∧
      argv.getLast? = some "--xml" := by
  refine ⟨arg ++ ["--xml"], execGlusterCommand_procs env arg w,
    execGlusterCommand_result env arg w, rfl, ?_, ?_, ?_⟩
  · simp
  · simp
  · simp

/-! ## The three outcomes of each operation -/

theorem ExecVolumeInfo_of_run_err {S : Schema} (env : Env S) (w : World)
    (buf : Bytes) (e : GoError)
    (h : env.Run env.GlusterCmd (["volume", "info"] ++ ["--xml"]) = (buf, some e)) :
    ExecVolumeInfo env w =
      ((S.zeroVolumeInfoXML, some e), (afterSpawn env ["volume", "info"] w).log LogLevel.Error
        "tried to execute %v and got error: %v" [LogArg.strs ["volume", "info"], LogArg.err e]) := by
  simp only [ExecVolumeInfo, execGlusterCommand_err env _ w buf e h]

theorem ExecVolumeInfo_of_decode_err {S : Schema} (env : Env S) (w : World)
    (buf : Bytes) (r : S.VolumeInfoXML) (d : GoError)
    (h : env.Run env.GlusterCmd (["volume", "info"] ++ ["--xml"]) = (buf, none))
    (hd : env.VolumeInfoXMLUnmarshall buf = (r, some d)) :
    ExecVolumeInfo env w =
      ((r, some d), (((afterSpawn env ["volume", "info"] w).decode "VolumeInfoXMLUnmarshall" buf).log LogLevel.Error
        "Something went wrong while unmarshalling xml: %v" [LogArg.err d])) := by
  simp only [ExecVolumeInfo, execGlusterCommand_ok env _ w buf h, hd]

theorem ExecVolumeInfo_of_ok {S : Schema} (env : Env S) (w : World)
    (buf : Bytes) (r : S.VolumeInfoXML)
    (h : env.Run env.GlusterCmd (["volume", "info"] ++ ["--xml"]) = (buf, none))
    (hd : env.VolumeInfoXMLUnmarshall buf = (r, none)) :
    ExecVolumeInfo env w =
      ((r, none), (((afterSpawn env ["volume", "info"] w).decode "VolumeInfoXMLUnmarshall" buf).log LogLevel.Debug
        "%+v" [LogArg.value "volumeInfo"])) := by
  simp only [ExecVolumeInfo, execGlusterCommand_ok env _ w buf h, hd]

theorem ExecVolumeInfo_procs {S : Schema} (env : Env S) (w : World) :
    (ExecVolumeInfo env w).2.procs =
      w.procs ++ [⟨env.GlusterCmd, ["volume", "info"] ++ ["--xml"]⟩] := by
  rcases h : env.Run env.GlusterCmd (["volume", "info"] ++ ["--xml"]) with ⟨buf, _ | e⟩
  · rcases hd : env.VolumeInfoXMLUnmarshall buf with ⟨r, _ | d⟩
    · rw [ExecVolumeInfo_of_ok env w buf r h hd]; rfl
    · rw [ExecVolumeInfo_of_decode_err env w buf r d h hd]; rfl
  · rw [ExecVolumeInfo_of_run_err env w buf e h]; rfl

theorem ExecVolumeList_of_run_err {S : Schema} (env : Env S) (w : World)
    (buf : Bytes) (e : GoError)
    (h : env.Run env.GlusterCmd (["volume", "list"] ++ ["--xml"]) = (buf, some e)) :
    ExecVolumeList env w =
      ((S.zeroVolList, some e), (afterSpawn env ["volume", "list"] w).log LogLevel.Error
        "tried to execute %v and got error: %v" [LogArg.strs ["volume", "list"], LogArg.err e]) := by
  simp only [ExecVolumeList, execGlusterCommand_err env _ w buf e h]

theorem ExecVolumeList_of_decode_err {S : Schema} (env : Env S) (w : World)
    (buf : Bytes) (r : S.VolumeListXML) (d : GoError)
    (h : env.Run env.GlusterCmd (["volume", "list"] ++ ["--xml"]) = (buf, none))
    (hd : env.VolumeListXMLUnmarshall buf = (r, some d)) :
    ExecVolumeList env w =
      ((S.getVolList r, some d), (((afterSpawn env ["volume", "list"] w).decode "VolumeListXMLUnmarshall" buf).log LogLevel.Error
        "Something went wrong while unmarshalling xml: %v" [LogArg.err d])) := by
  simp only [ExecVolumeList, execGlusterCommand_ok env _ w buf h, hd]

theorem ExecVolumeList_of_ok {S : Schema} (env : Env S) (w : World)
    (buf : Bytes) (r : S.VolumeListXML)
    (h : env.Run env.GlusterCmd (["volume", "list"] ++ ["--xml"]) = (buf, none))
    (hd : env.VolumeListXMLUnmarshall buf = (r, none)) :
    ExecVolumeList env w =
      ((S.getVolList r, none), (((afterSpawn env ["volume", "list"] w).decode "VolumeListXMLUnmarshall" buf).log LogLevel.Debug
        "%+v" [LogArg.value "volumeList"])) := by
  simp only [ExecVolumeList, execGlusterCommand_ok env _ w buf h, hd]

theorem ExecVolumeList_procs {S : Schema} (env : Env S) (w : World) :
    (ExecVolumeList env w).2.procs =
      w.procs ++ [⟨env.GlusterCmd, ["volume", "list"] ++ ["--xml"]⟩] := by
  rcases h : env.Run env.GlusterCmd (["volume", "list"] ++ ["--xml"]) with ⟨buf, _ | e⟩
  · rcases hd : env.VolumeListXMLUnmarshall buf with ⟨r, _ | d⟩
    · rw [ExecVolumeList_of_ok env w buf r h hd]; rfl
    · rw [ExecVolumeList_of_decode_err env w buf r d h hd]; rfl
  · rw [ExecVolumeList_of_run_err env w buf e h]; rfl

theorem ExecPeerStatus_of_run_err {S : Schema} (env : Env S) (w : World)
    (buf : Bytes) (e : GoError)
    (h : env.Run env.GlusterCmd (["peer", "status"] ++ ["--xml"]) = (buf, some e)) :
    ExecPeerStatus env w =
      ((S.zeroPeerStatus, some e), (afterSpawn env ["peer", "status"] w).log LogLevel.Error
        "tried to execute %v and got error: %v" [LogArg.strs ["peer", "status"], LogArg.err e]) := by
  simp only [ExecPeerStatus, execGlusterCommand_err env _ w buf e h]

theorem ExecPeerStatus_of_decode_err {S : Schema} (env : Env S) (w : World)
    (buf : Bytes) (r : S.PeerStatusXML) (d : GoError)
    (h : env.Run env.GlusterCmd (["peer", "status"] ++ ["--xml"]) = (buf, none))
    (hd : env.PeerStatusXMLUnmarshall buf = (r, some d)) :
    ExecPeerStatus env w =
      ((S.getPeerStatus r, some d), (((afterSpawn env ["peer", "status"] w).decode "PeerStatusXMLUnmarshall" buf).log LogLevel.Error
        "Something went wrong while unmarshalling xml: %v" [LogArg.err d])) := by
  simp only [ExecPeerStatus, execGlusterCommand_ok env _ w buf h, hd]

theorem ExecPeerStatus_of_ok {S : Schema} (env : Env S) (w : World)
    (buf : Bytes) (r : S.PeerStatusXML)
    (h : env.Run env.GlusterCmd (["peer", "status"] ++ ["--xml"]) = (buf, none))
    (hd : env.PeerStatusXMLUnmarshall buf = (r, none)) :
    ExecPeerStatus env w =
      ((S.getPeerStatus r, none), (((afterSpawn env ["peer", "status"] w).decode "PeerStatusXMLUnmarshall" buf).log LogLevel.Debug
        "%+v" [LogArg.value "peerStatus"])) := by
  simp only [ExecPeerStatus, execGlusterCommand_ok env _ w buf h, hd]

theorem ExecPeerStatus_procs {S : Schema} (env : Env S) (w : World) :
    (ExecPeerStatus env w).2.procs =
      w.procs ++ [⟨env.GlusterCmd, ["peer", "status"] ++ ["--xml"]⟩] := by
  rcases h : env.Run env.GlusterCmd (["peer", "status"] ++ ["--xml"]) with ⟨buf, _ | e⟩
  · rcases hd : env.PeerStatusXMLUnmarshall buf with ⟨r, _ | d⟩
    · rw [ExecPeerStatus_of_ok env w buf r h hd]; rfl
    · rw [ExecPeerStatus_of_decode_err env w buf r d h hd]; rfl
  · rw [ExecPeerStatus_of_run_err env w buf e h]; rfl

theorem ExecVolumeProfileGvInfoCumulative_of_run_err {S : Schema} (env : Env S) (volumeName : String) (w : World)
    (buf : Bytes) (e : GoError)
    (h : env.Run env.GlusterCmd (["volume", "profile", volumeName, "info", "cumulative"] ++ ["--xml"]) = (buf, some e)) :
    ExecVolumeProfileGvInfoCumulative env volumeName w =
      ((S.zeroVolProfile, some e), (afterSpawn env ["volume", "profile", volumeName, "info", "cumulative"] w).log LogLevel.Error
        "tried to execute %v and got error: %v" [LogArg.strs ["volume", "profile", volumeName, "info", "cumulative"], LogArg.err e]) := by
  simp only [ExecVolumeProfileGvInfoCumulative, execGlusterCommand_err env _ w buf e h]

theorem ExecVolumeProfileGvInfoCumulative_of_decode_err {S : Schema} (env : Env S) (volumeName : String) (w : World)
    (buf : Bytes) (r : S.VolumeProfileXML) (d : GoError)
    (h : env.Run env.GlusterCmd (["volume", "profile", volumeName, "info", "cumulative"] ++ ["--xml"]) = (buf, none))
    (hd : env.VolumeProfileGvInfoCumulativeXMLUnmarshall buf = (r, some d)) :
    ExecVolumeProfileGvInfoCumulative env volumeName w =
      ((S.getVolProfile r, some d), (((afterSpawn env ["volume", "profile", volumeName, "info", "cumulative"] w).decode "VolumeProfileGvInfoCumulativeXMLUnmarshall" buf).log LogLevel.Error
        "Something went wrong while unmarshalling xml: %v" [LogArg.err d])) := by
  simp only [ExecVolumeProfileGvInfoCumulative, execGlusterCommand_ok env _ w buf h, hd]

theorem ExecVolumeProfileGvInfoCumulative_of_ok {S : Schema} (env : Env S) (volumeName : String) (w : World)
    (buf : Bytes) (r : S.VolumeProfileXML)
    (h : env.Run env.GlusterCmd (["volume", "profile", volumeName, "info", "cumulative"] ++ ["--xml"]) = (buf, none))
    (hd : env.VolumeProfileGvInfoCumulativeXMLUnmarshall buf = (r, none)) :
    ExecVolumeProfileGvInfoCumulative env volumeName w =
      ((S.getVolProfile r, none), (((afterSpawn env ["volume", "profile", volumeName, "info", "cumulative"] w).decode "VolumeProfileGvInfoCumulativeXMLUnmarshall" buf).log LogLevel.Debug
        "%+v" [LogArg.value "volumeProfile"])) := by
  simp only [ExecVolumeProfileGvInfoCumulative, execGlusterCommand_ok env _ w buf h, hd]

theorem ExecVolumeProfileGvInfoCumulative_procs {S : Schema} (env : Env S) (volumeName : String) (w : World) :
    (ExecVolumeProfileGvInfoCumulative env volumeName w).2.procs =
      w.procs ++ [⟨env.GlusterCmd, ["volume", "profile", volumeName, "info", "cumulative"] ++ ["--xml"]⟩] := by
  rcases h : env.Run env.GlusterCmd (["volume", "profile", volumeName, "info", "cumulative"] ++ ["--xml"]) with ⟨buf, _ | e⟩
  · rcases hd : env.VolumeProfileGvInfoCumulativeXMLUnmarshall buf with ⟨r, _ | d⟩
    · rw [ExecVolumeProfileGvInfoCumulative_of_ok env volumeName w buf r h hd]; rfl
    · rw [ExecVolumeProfileGvInfoCumulative_of_decode_err env volumeName w buf r d h hd]; rfl
  · rw [ExecVolumeProfileGvInfoCumulative_of_run_err env volumeName w buf e h]; rfl

theorem ExecVolumeStatusAllDetail_of_run_err {S : Schema} (env : Env S) (w : World)
    (buf : Bytes) (e : GoError)
    (h : env.Run env.GlusterCmd (["volume", "status", "all", "detail"] ++ ["--xml"]) = (buf, some e)) :
    ExecVolumeStatusAllDetail env w =
      ((S.zeroVolumeStatusXML, some e), (afterSpawn env ["volume", "status", "all", "detail"] w).log LogLevel.Error
        "tried to execute %v and got error: %v" [LogArg.strs ["volume", "status", "all", "detail"], LogArg.err e]) := by
  simp only [ExecVolumeStatusAllDetail, execGlusterCommand_err env _ w buf e h]

theorem ExecVolumeStatusAllDetail_of_decode_err {S : Schema} (env : Env S) (w : World)
    (buf : Bytes) (r : S.VolumeStatusXML) (d : GoError)
    (h : env.Run env.GlusterCmd (["volume", "status", "all", "detail"] ++ ["--xml"]) = (buf, none))
    (hd : env.VolumeStatusAllDetailXMLUnmarshall buf = (r, some d)) :
    ExecVolumeStatusAllDetail env w =
      ((r, some d), (((afterSpawn env ["volume", "status", "all", "detail"] w).decode "VolumeStatusAllDetailXMLUnmarshall" buf).log LogLevel.Error
        "Something went wrong while unmarshalling xml: %v" [LogArg.err d])) := by
  simp only [ExecVolumeStatusAllDetail, execGlusterCommand_ok env _ w buf h, hd]

theorem ExecVolumeStatusAllDetail_of_ok {S : Schema} (env : Env S) (w : World)
    (buf : Bytes) (r : S.VolumeStatusXML)
    (h : env.Run env.GlusterCmd (["volume", "status", "all", "detail"] ++ ["--xml"]) = (buf, none))
    (hd : env.VolumeStatusAllDetailXMLUnmarshall buf = (r, none)) :
    ExecVolumeStatusAllDetail env w =
      ((r, none), (((afterSpawn env ["volume", "status", "all", "detail"] w).decode "VolumeStatusAllDetailXMLUnmarshall" buf).log LogLevel.Debug
        "%+v" [LogArg.value "volumeStatus"])) := by
  simp only [ExecVolumeStatusAllDetail, execGlusterCommand_ok env _ w buf h, hd]

theorem ExecVolumeStatusAllDetail_procs {S : Schema} (env : Env S) (w : World) :
    (ExecVolumeStatusAllDetail env w).2.procs =
      w.procs ++ [⟨env.GlusterCmd, ["volume", "status", "all", "detail"] ++ ["--xml"]⟩] := by
  rcases h : env.Run env.GlusterCmd (["volume", "status", "all", "detail"] ++ ["--xml"]) with ⟨buf, _ | e⟩
  · rcases hd : env.VolumeStatusAllDetailXMLUnmarshall buf with ⟨r, _ | d⟩
    · rw [ExecVolumeStatusAllDetail_of_ok env w buf r h hd]; rfl
    · rw [ExecVolumeStatusAllDetail_of_decode_err env w buf r d h hd]; rfl
  · rw [ExecVolumeStatusAllDetail_of_run_err env w buf e h]; rfl

theorem ExecVolumeQuotaList_of_run_err {S : Schema} (env : Env S) (volumeName : String) (w : World)
    (buf : Bytes) (e : GoError)
    (h : env.Run env.GlusterCmd (["volume", "quota", volumeName, "list"] ++ ["--xml"]) = (buf, some e)) :
    ExecVolumeQuotaList env volumeName w =
      ((S.zeroVolumeQuotaXML, some e), (afterSpawn env ["volume", "quota", volumeName, "list"] w).log LogLevel.Error
        "tried to execute %v and got error: %v" [LogArg.strs ["volume", "quota", volumeName, "list"], LogArg.err e]) := by
  simp only [ExecVolumeQuotaList, execGlusterCommand_err env _ w buf e h]

theorem ExecVolumeQuotaList_of_decode_err {S : Schema} (env : Env S) (volumeName : String) (w : World)
    (buf : Bytes) (r : S.VolumeQuotaXML) (d : GoError)
    (h : env.Run env.GlusterCmd (["volume", "quota", volumeName, "list"] ++ ["--xml"]) = (buf, none))
    (hd : env.VolumeQuotaListXMLUnmarshall buf = (r, some d)) :
    ExecVolumeQuotaList env volumeName w =
      ((r, some d), (((afterSpawn env ["volume", "quota", volumeName, "list"] w).decode "VolumeQuotaListXMLUnmarshall" buf).log LogLevel.Error
        "Something went wrong while unmarshalling xml: %v" [LogArg.err d])) := by
  simp only [ExecVolumeQuotaList, execGlusterCommand_ok env _ w buf h, hd]

theorem ExecVolumeQuotaList_of_ok {S : Schema} (env : Env S) (volumeName : String) (w : World)
    (buf : Bytes) (r : S.VolumeQuotaXML)
    (h : env.Run env.GlusterCmd (["volume", "quota", volumeName, "list"] ++ ["--xml"]) = (buf, none))
    (hd : env.VolumeQuotaListXMLUnmarshall buf = (r, none)) :
    ExecVolumeQuotaList env volumeName w =
      ((r, none), (((afterSpawn env ["volume", "quota", volumeName, "list"] w).decode "VolumeQuotaListXMLUnmarshall" buf).log LogLevel.Debug
        "%+v" [LogArg.value "volumeQuota"])) := by
  simp only [ExecVolumeQuotaList, execGlusterCommand_ok env _ w buf h, hd]

theorem ExecVolumeQuotaList_procs {S : Schema} (env : Env S) (volumeName : String) (w : World) :
    (ExecVolumeQuotaList env volumeName w).2.procs =
      w.procs ++ [⟨env.GlusterCmd, ["volume", "quota", volumeName, "list"] ++ ["--xml"]⟩] := by
  rcases h : env.Run env.GlusterCmd (["volume", "quota", volumeName, "list"] ++ ["--xml"]) with ⟨buf, _ | e⟩
  · rcases hd : env.VolumeQuotaListXMLUnmarshall buf with ⟨r, _ | d⟩
    · rw [ExecVolumeQuotaList_of_ok env volumeName w buf r h hd]; rfl
    · rw [ExecVolumeQuotaList_of_decode_err env volumeName w buf r d h hd]; rfl
  · rw [ExecVolumeQuotaList_of_run_err env volumeName w buf e h]; rfl

theorem ExecVolumeHealInfo_of_run_err {S : Schema} (env : Env S) (volumeName : String)
    (w : World) (buf : Bytes) (e : GoError)
    (h : env.Run env.GlusterCmd (["volume", "heal", volumeName, "info"] ++ ["--xml"]) = (buf, some e)) :
    ExecVolumeHealInfo env volumeName w =
      ((-1, some e), (afterSpawn env ["volume", "heal", volumeName, "info"] w).log LogLevel.Error
        "tried to execute %v and got error: %v" [LogArg.strs ["volume", "heal", volumeName, "info"], LogArg.err e]) := by
  simp only [ExecVolumeHealInfo, execGlusterCommand_err env _ w buf e h]

theorem ExecVolumeHealInfo_of_decode_err {S : Schema} (env : Env S) (volumeName : String)
    (w : World) (buf : Bytes) (r : VolumeHealInfoXML) (d : GoError)
    (h : env.Run env.GlusterCmd (["volume", "heal", volumeName, "info"] ++ ["--xml"]) = (buf, none))
    (hd : env.VolumeHealInfoXMLUnmarshall buf = (r, some d)) :
    ExecVolumeHealInfo env volumeName w =
      ((-1, some d), (afterSpawn env ["volume", "heal", volumeName, "info"] w).decode "VolumeHealInfoXMLUnmarshall" buf) := by
  simp only [ExecVolumeHealInfo, execGlusterCommand_ok env _ w buf h, hd]

theorem ExecVolumeHealInfo_of_loop_err {S : Schema} (env : Env S) (volumeName : String)
    (w : World) (buf : Bytes) (r : VolumeHealInfoXML) (v : Int) (c : GoError)
    (h : env.Run env.GlusterCmd (["volume", "heal", volumeName, "info"] ++ ["--xml"]) = (buf, none))
    (hd : env.VolumeHealInfoXMLUnmarshall buf = (r, none))
    (hl : healLoop r.HealInfo.Bricks.Brick 0 = (v, some c)) :
    ExecVolumeHealInfo env volumeName w =
      ((-1, some c), ((afterSpawn env ["volume", "heal", volumeName, "info"] w).decode "VolumeHealInfoXMLUnmarshall" buf).log
        LogLevel.Debug "%+v" [LogArg.value "healInfo"]) := by
  simp only [ExecVolumeHealInfo, execGlusterCommand_ok env _ w buf h, hd, hl]

theorem ExecVolumeHealInfo_of_ok {S : Schema} (env : Env S) (volumeName : String)
    (w : World) (buf : Bytes) (r : VolumeHealInfoXML) (total : Int)
    (h : env.Run env.GlusterCmd (["volume", "heal", volumeName, "info"] ++ ["--xml"]) = (buf, none))
    (hd : env.VolumeHealInfoXMLUnmarshall buf = (r, none))
    (hl : healLoop r.HealInfo.Bricks.Brick 0 = (total, none)) :
    ExecVolumeHealInfo env volumeName w =
      ((total, none), (((afterSpawn env ["volume", "heal", volumeName, "info"] w).decode "VolumeHealInfoXMLUnmarshall" buf).log
        LogLevel.Debug "%+v" [LogArg.value "healInfo"]).log
        LogLevel.Debug "%+v" [LogArg.int total]) := by
  simp only [ExecVolumeHealInfo, execGlusterCommand_ok env _ w buf h, hd, hl]

theorem ExecVolumeHealInfo_procs {S : Schema} (env : Env S) (volumeName : String)
    (w : World) :
    (ExecVolumeHealInfo env volumeName w).2.procs =
      w.procs ++ [⟨env.GlusterCmd, ["volume", "heal", volumeName, "info"] ++ ["--xml"]⟩] := by
  rcases h : env.Run env.GlusterCmd (["volume", "heal", volumeName, "info"] ++ ["--xml"]) with ⟨buf, _ | e⟩
  · rcases hd : env.VolumeHealInfoXMLUnmarshall buf with ⟨r, _ | d⟩
    · rcases hl : healLoop r.HealInfo.Bricks.Brick 0 with ⟨v, _ | c⟩
      · rw [ExecVolumeHealInfo_of_ok env volumeName w buf r v h hd hl]; rfl
      · rw [ExecVolumeHealInfo_of_loop_err env volumeName w buf r v c h hd hl]; rfl
    · rw [ExecVolumeHealInfo_of_decode_err env volumeName w buf r d h hd]; rfl
  · rw [ExecVolumeHealInfo_of_run_err env volumeName w buf e h]; rfl

/-- C6: every operation spawns exactly one child process, the tool `GlusterCmd`,
with its fixed argument vector followed by `--xml`; the volume name is passed
on unchanged as the third argument. -/
theorem operations_spawn_fixed_vectors {S : Schema} (env : Env S) (n : String) (w : World) :
    (ExecVolumeInfo env w).2.procs =
        w.procs ++ [⟨env.GlusterCmd, ["volume", "info", "--xml"]⟩] ∧
    (ExecVolumeList env w).2.procs =
        w.procs ++ [⟨env.GlusterCmd, ["volume", "list", "--xml"]⟩] ∧
    (ExecPeerStatus env w).2.procs =
        w.procs ++ [⟨env.GlusterCmd, ["peer", "status", "--xml"]⟩] ∧
    (ExecVolumeProfileGvInfoCumulative env n w).2.procs =
        w.procs ++ [⟨env.GlusterCmd, ["volume", "profile", n, "info", "cumulative", "--xml"]⟩] ∧
    (ExecVolumeStatusAllDetail env w).2.procs =
        w.procs ++ [⟨env.GlusterCmd, ["volume", "status", "all", "detail", "--xml"]⟩] ∧
    (ExecVolumeHealInfo env n w).2.procs =
        w.procs ++ [⟨env.GlusterCmd, ["volume", "heal", n, "info", "--xml"]⟩] ∧
    (ExecVolumeQuotaList env n w).2.procs =
        w.procs ++ [⟨env.GlusterCmd, ["volume", "quota", n, "list", "--xml"]⟩] :=
  ⟨ExecVolumeInfo_procs env w, ExecVolumeList_procs env w, ExecPeerStatus_procs env w,
    ExecVolumeProfileGvInfoCumulative_procs env n w, ExecVolumeStatusAllDetail_procs env w,
    ExecVolumeHealInfo_procs env n w, ExecVolumeQuotaList_procs env n w⟩

/-! ## Failures of the tool and of the decoder -/

/-- C5: for each of the seven operations, when the run of the tool returns an
error the operation returns that same error with the zero record (`-1` for
`ExecVolumeHealInfo`), and no decoder call is made. -/
theorem runner_error_returned_without_decoding {S : Schema} (env : Env S) (n : String)
    (w : World) :
    (∀ buf e, env.Run env.GlusterCmd ["volume", "info", "--xml"] = (buf, some e) →
      (ExecVolumeInfo env w).1 = (S.zeroVolumeInfoXML, some e) ∧
      (ExecVolumeInfo env w).2.decodes = w.decodes) ∧
    (∀ buf e, env.Run env.GlusterCmd ["volume", "list", "--xml"] = (buf, some e) →
      (ExecVolumeList env w).1 = (S.zeroVolList, some e) ∧
      (ExecVolumeList env w).2.decodes = w.decodes) ∧
    (∀ buf e, env.Run env.GlusterCmd ["peer", "status", "--xml"] = (buf, some e) →
      (ExecPeerStatus env w).1 = (S.zeroPeerStatus, some e) ∧
      (ExecPeerStatus env w).2.decodes = w.decodes) ∧
    (∀ buf e, env.Run env.GlusterCmd ["volume", "profile", n, "info", "cumulative", "--xml"] = (buf, some e) →
      (ExecVolumeProfileGvInfoCumulative env n w).1 = (S.zeroVolProfile, some e) ∧
      (ExecVolumeProfileGvInfoCumulative env n w).2.decodes = w.decodes) ∧
    (∀ buf e, env.Run env.GlusterCmd ["volume", "status", "all", "detail", "--xml"] = (buf, some e) →
      (ExecVolumeStatusAllDetail env w).1 = (S.zeroVolumeStatusXML, some e) ∧
      (ExecVolumeStatusAllDetail env w).2.decodes = w.decodes) ∧
    (∀ buf e, env.Run env.GlusterCmd ["volume", "heal", n, "info", "--xml"] = (buf, some e) →
      (ExecVolumeHealInfo env n w).1 = (-1, some e) ∧
      (ExecVolumeHealInfo env n w).2.decodes = w.decodes) ∧
    (∀ buf e, env.Run env.GlusterCmd ["volume", "quota", n, "list", "--xml"] = (buf, some e) →
      (ExecVolumeQuotaList env n w).1 = (S.zeroVolumeQuotaXML, some e) ∧
      (ExecVolumeQuotaList env n w).2.decodes = w.decodes) := by
  refine ⟨?_, ?_, ?_, ?_, ?_, ?_, ?_⟩
  · intro buf e h
    rw [ExecVolumeInfo_of_run_err env w buf e h]
    exact ⟨rfl, rfl⟩
  · intro buf e h
    rw [ExecVolumeList_of_run_err env w buf e h]
    exact ⟨rfl, rfl⟩
  · intro buf e h
    rw [ExecPeerStatus_of_run_err env w buf e h]
    exact ⟨rfl, rfl⟩
  · intro buf e h
    rw [ExecVolumeProfileGvInfoCumulative_of_run_err env n w buf e h]
    exact ⟨rfl, rfl⟩
  · intro buf e h
    rw [ExecVolumeStatusAllDetail_of_run_err env w buf e h]
    exact ⟨rfl, rfl⟩
  · intro buf e h
    rw [ExecVolumeHealInfo_of_run_err env n w buf e h]
    exact ⟨rfl, rfl⟩
  · intro buf e h
    rw [ExecVolumeQuotaList_of_run_err env n w buf e h]
    exact ⟨rfl, rfl⟩

theorem runner_error_returned_without_decoding_witness :
    (failEnv [7] (GoError.foreign "exit status 1")).Run "gluster" ["volume", "info", "--xml"] =
        ([7], some (GoError.foreign "exit status 1")) ∧
    (ExecVolumeInfo (failEnv [7] (GoError.foreign "exit status 1")) World.empty).1 =
        ([], some (GoError.foreign "exit status 1")) ∧
    (ExecVolumeInfo (failEnv [7] (GoError.foreign "exit status 1")) World.empty).2.decodes = [] ∧
    (ExecVolumeHealInfo (failEnv [7] (GoError.foreign "exit status 1")) "gv0" World.empty).1 =
        (-1, some (GoError.foreign "exit status 1")) ∧
    (ExecVolumeHealInfo (failEnv [7] (GoError.foreign "exit status 1")) "gv0"
        World.empty).2.decodes = [] :=
  ⟨rfl,
    ((runner_error_returned_without_decoding (failEnv [7] (GoError.foreign "exit status 1"))
      "gv0" World.empty).1 [7] (GoError.foreign "exit status 1") rfl).1,
    ((runner_error_returned_without_decoding (failEnv [7] (GoError.foreign "exit status 1"))
      "gv0" World.empty).1 [7] (GoError.foreign "exit status 1") rfl).2,
    ((runner_error_returned_without_decoding (failEnv [7] (GoError.foreign "exit status 1"))
      "gv0" World.empty).2.2.2.2.2.1 [7] (GoError.foreign "exit status 1") rfl).1,
    ((runner_error_returned_without_decoding (failEnv [7] (GoError.foreign "exit status 1"))
      "gv0" World.empty).2.2.2.2.2.1 [7] (GoError.foreign "exit status 1") rfl).2⟩

/-- C8: for each of the seven operations, when the tool ran without error and
the decoder returns an error, the operation returns exactly the decoder's
error, never nil; the value is what the decoder left in the record, and `-1`
(not `0`) for `ExecVolumeHealInfo`. -/
theorem decode_error_returned {S : Schema} (env : Env S) (n : String) (w : World) :
    (∀ buf (r : S.VolumeInfoXML) d, env.Run env.GlusterCmd ["volume", "info", "--xml"] = (buf, none) →
      env.VolumeInfoXMLUnmarshall buf = (r, some d) →
      (ExecVolumeInfo env w).1 = (r, some d)) ∧
    (∀ buf (r : S.VolumeListXML) d, env.Run env.GlusterCmd ["volume", "list", "--xml"] = (buf, none) →
      env.VolumeListXMLUnmarshall buf = (r, some d) →
      (ExecVolumeList env w).1 = (S.getVolList r, some d)) ∧
    (∀ buf (r : S.PeerStatusXML) d, env.Run env.GlusterCmd ["peer", "status", "--xml"] = (buf, none) →
      env.PeerStatusXMLUnmarshall buf = (r, some d) →
      (ExecPeerStatus env w).1 = (S.getPeerStatus r, some d)) ∧
    (∀ buf (r : S.VolumeProfileXML) d, env.Run env.GlusterCmd ["volume", "profile", n, "info", "cumulative", "--xml"] = (buf, none) →
      env.VolumeProfileGvInfoCumulativeXMLUnmarshall buf = (r, some d) →
      (ExecVolumeProfileGvInfoCumulative env n w).1 = (S.getVolProfile r, some d)) ∧
    (∀ buf (r : S.VolumeStatusXML) d, env.Run env.GlusterCmd ["volume", "status", "all", "detail", "--xml"] = (buf, none) →
      env.VolumeStatusAllDetailXMLUnmarshall buf = (r, some d) →
      (ExecVolumeStatusAllDetail env w).1 = (r, some d)) ∧
    (∀ buf (r : VolumeHealInfoXML) d, env.Run env.GlusterCmd ["volume", "heal", n, "info", "--xml"] = (buf, none) →
      env.VolumeHealInfoXMLUnmarshall buf = (r, some d) →
      (ExecVolumeHealInfo env n w).1 = (-1, some d)) ∧
    (∀ buf (r : S.VolumeQuotaXML) d, env.Run env.GlusterCmd ["volume", "quota", n, "list", "--xml"] = (buf, none) →
      env.VolumeQuotaListXMLUnmarshall buf = (r, some d) →
      (ExecVolumeQuotaList env n w).1 = (r, some d)) := by
  refine ⟨?_, ?_, ?_, ?_, ?_, ?_, ?_⟩
  · intro buf r d h hd
    rw [ExecVolumeInfo_of_decode_err env w buf r d h hd]
  · intro buf r d h hd
    rw [ExecVolumeList_of_decode_err env w buf r d h hd]
  · intro buf r d h hd
    rw [ExecPeerStatus_of_decode_err env w buf r d h hd]
  · intro buf r d h hd
    rw [ExecVolumeProfileGvInfoCumulative_of_decode_err env n w buf r d h hd]
  · intro buf r d h hd
    rw [ExecVolumeStatusAllDetail_of_decode_err env w buf r d h hd]
  · intro buf r d h hd
    rw [ExecVolumeHealInfo_of_decode_err env n w buf r d h hd]
  · intro buf r d h hd
    rw [ExecVolumeQuotaList_of_decode_err env n w buf r d h hd]

theorem decode_error_returned_witness :
    (badXmlEnv [7] ["part"] ["3"] (GoError.foreign "EOF")).Run "gluster"
        ["volume", "heal", "gv0", "info", "--xml"] = ([7], none) ∧
    (badXmlEnv [7] ["part"] ["3"] (GoError.foreign "EOF")).VolumeHealInfoXMLUnmarshall [7] =
        (healRecord ["3"], some (GoError.foreign "EOF")) ∧
    (ExecVolumeHealInfo (badXmlEnv [7] ["part"] ["3"] (GoError.foreign "EOF")) "gv0"
        World.empty).1 = (-1, some (GoError.foreign "EOF")) ∧
    (ExecVolumeQuotaList (badXmlEnv [7] ["part"] ["3"] (GoError.foreign "EOF")) "gv0"
        World.empty).1 = (["part"], some (GoError.foreign "EOF")) :=
  ⟨rfl, rfl,
    (decode_error_returned (badXmlEnv [7] ["part"] ["3"] (GoError.foreign "EOF")) "gv0"
      World.empty).2.2.2.2.2.1 [7] (healRecord ["3"]) (GoError.foreign "EOF") rfl rfl,
    (decode_error_returned (badXmlEnv [7] ["part"] ["3"] (GoError.foreign "EOF")) "gv0"
      World.empty).2.2.2.2.2.2 [7] ["part"] (GoError.foreign "EOF") rfl rfl⟩

/-! ## The passthrough operations -/

/-- C7: the passthrough operations reduce nothing, each under its own
conditions alone.  When the run of `volume quota <name> list` returned no error
and its decoder succeeded, `ExecVolumeQuotaList` returns the decoded record
itself with a nil error.  When the run of `volume profile <name> info
cumulative` returned no error and its decoder succeeded,
`ExecVolumeProfileGvInfoCumulative` returns the `VolProfile` member of the
decoded document with a nil error.  So whatever sequence of entries is read
from the result is the sequence read from the decoded record: same entries,
same order, nothing summed. -/
theorem passthrough_returns_decoded {S : Schema} (env : Env S) (n : String) (w : World) :
    (∀ (buf : Bytes) (q : S.VolumeQuotaXML),
      env.Run env.GlusterCmd ["volume", "quota", n, "list", "--xml"] = (buf, none) →
      env.VolumeQuotaListXMLUnmarshall buf = (q, none) →
      (ExecVolumeQuotaList env n w).1 = (q, none) ∧
      ∀ (E : Type) (entries : S.VolumeQuotaXML → List E),
        entries (ExecVolumeQuotaList env n w).1.1 = entries q) ∧
    (∀ (buf : Bytes) (p : S.VolumeProfileXML),
      env.Run env.GlusterCmd ["volume", "profile", n, "info", "cumulative", "--xml"] =
        (buf, none) →
      env.VolumeProfileGvInfoCumulativeXMLUnmarshall buf = (p, none) →
      (ExecVolumeProfileGvInfoCumulative env n w).1 = (S.getVolProfile p, none) ∧
      ∀ (E : Type) (bricks : S.VolProfile → List E),
        bricks (ExecVolumeProfileGvInfoCumulative env n w).1.1 =
          bricks (S.getVolProfile p)) := by
  refine ⟨?_, ?_⟩
  · intro buf q h hd
    rw [ExecVolumeQuotaList_of_ok env n w buf q h hd]
    exact ⟨rfl, fun _ _ => rfl⟩
  · intro buf p h hd
    rw [ExecVolumeProfileGvInfoCumulative_of_ok env n w buf p h hd]
    exact ⟨rfl, fun _ _ => rfl⟩

theorem passthrough_returns_decoded_witness :
    (quotaOnlyEnv [7] ["/a 10", "/b 20", "/c 30"]).Run "gluster"
        ["volume", "profile", "gv0", "info", "cumulative", "--xml"] =
      ([], some (GoError.foreign "exit status 1")) ∧
    (ExecVolumeQuotaList (quotaOnlyEnv [7] ["/a 10", "/b 20", "/c 30"]) "gv0"
        World.empty).1 = (["/a 10", "/b 20", "/c 30"], none) ∧
    (ExecVolumeQuotaList (quotaOnlyEnv [7] ["/a 10", "/b 20", "/c 30"]) "gv0"
        World.empty).1.1.length = 3 ∧
    (ExecVolumeProfileGvInfoCumulative (okEnv [7] ["brick1 5", "brick2 9"] []) "gv0"
        World.empty).1 = (["brick1 5", "brick2 9"], none) :=
  ⟨rfl,
    ((passthrough_returns_decoded (quotaOnlyEnv [7] ["/a 10", "/b 20", "/c 30"]) "gv0"
      World.empty).1 [7] ["/a 10", "/b 20", "/c 30"] rfl rfl).1,
    rfl,
    ((passthrough_returns_decoded (okEnv [7] ["brick1 5", "brick2 9"] []) "gv0"
      World.empty).2 [7] (0, ["brick1 5", "brick2 9"]) rfl rfl).1⟩

/-! ## What the runner's error carries -/

/-- C9, as the claim states it, fails: two different argument sequences that
fail with the same underlying error return the same error. -/
theorem execGlusterCommand_error_omits_subcommand :
    ¬ (∀ (S : Schema) (env : Env S) (arg1 arg2 : List String) (w : World) (b1 b2 : Bytes)
        (e : GoError), arg1 ≠ arg2 →
        env.Run env.GlusterCmd (arg1 ++ ["--xml"]) = (b1, some e) →
        env.Run env.GlusterCmd (arg2 ++ ["--xml"]) = (b2, some e) →
        (execGlusterCommand env arg1 w).1.2 ≠ (execGlusterCommand env arg2 w).1.2) := by
  intro h
  exact h sampleSchema (failEnv [] (GoError.foreign "exit status 1")) ["volume", "info"]
    ["peer", "status"] World.empty [] [] (GoError.foreign "exit status 1") (by decide) rfl rfl rfl

/-- C9, amended: when the run of the tool returns an error, `execGlusterCommand`
returns the captured buffer and that error unchanged; the attempted arguments
are not part of it, they go with the error to the last log event, at error
level; so two argument sequences failing with the same underlying error
return the same error. -/
theorem execGlusterCommand_returns_underlying_error {S : Schema} (env : Env S)
    (arg1 arg2 : List String) (w : World) (b1 b2 : Bytes) (e : GoError)
    (h1 : env.Run env.GlusterCmd (arg1 ++ ["--xml"]) = (b1, some e))
    (h2 : env.Run env.GlusterCmd (arg2 ++ ["--xml"]) = (b2, some e)) :
    (execGlusterCommand env arg1 w).1 = (b1, some e) ∧
    (execGlusterCommand env arg1 w).2.logs.getLast? =
      some ⟨LogLevel.Error, "tried to execute %v and got error: %v",
        [LogArg.strs arg1, LogArg.err e]⟩ ∧
    (execGlusterCommand env arg1 w).1.2 = (execGlusterCommand env arg2 w).1.2 := by
  rw [execGlusterCommand_err env arg1 w b1 e h1, execGlusterCommand_err env arg2 w b2 e h2]
  refine ⟨rfl, ?_, rfl⟩
  simp [World.log]

theorem execGlusterCommand_returns_underlying_error_witness :
    (execGlusterCommand (failEnv [7] (GoError.foreign "exit status 1")) ["volume", "info"]
        World.empty).1 = ([7], some (GoError.foreign "exit status 1")) ∧
    (execGlusterCommand (failEnv [7] (GoError.foreign "exit status 1")) ["volume", "info"]
        World.empty).2.logs.getLast? =
      some ⟨LogLevel.Error, "tried to execute %v and got error: %v",
        [LogArg.strs ["volume", "info"], LogArg.err (GoError.foreign "exit status 1")]⟩ ∧
    (execGlusterCommand (failEnv [7] (GoError.foreign "exit status 1")) ["volume", "info"]
        World.empty).1.2 =
      (execGlusterCommand (failEnv [7] (GoError.foreign "exit status 1")) ["peer", "status"]
        World.empty).1.2 :=
  execGlusterCommand_returns_underlying_error (failEnv [7] (GoError.foreign "exit status 1"))
    ["volume", "info"] ["peer", "status"] World.empty [7] [7] (GoError.foreign "exit status 1")
    rfl rfl

/-! ## The heal-info reduction -/

theorem wrapInt_wrapInt_add (a c : Int) : wrapInt (wrapInt a + c) = wrapInt (a + c) := by
  unfold wrapInt intSize
  norm_num
  omega

theorem wrapInt_of_fits (x : Int) (h1 : minInt ≤ x) (h2 : x ≤ maxInt) : wrapInt x = x := by
  unfold wrapInt minInt maxInt intSize at *
  norm_num at *
  omega

theorem wrapInt_zero : wrapInt 0 = 0 := by decide

/-- When every count parses, the loop started from a wrapped total ends with the
wrapped exact total and no error. -/
theorem healLoop_of_all_parse (bricks : List BrickHealInfo) (acc : Int)
    (h : ∀ b ∈ bricks, (Atoi b.NumberOfEntries).2 = none) :
    healLoop bricks (wrapInt acc) =
      (wrapInt (acc + (bricks.map fun b => (Atoi b.NumberOfEntries).1).sum), none) := by
  induction bricks generalizing acc with
  | nil => simp [healLoop]
  | cons b rest ih =>
    have hb := h b (List.mem_cons_self b rest)
    rcases hA : Atoi b.NumberOfEntries with ⟨count, _ | err⟩
    · simp only [healLoop, hA, wrapInt_wrapInt_add]
      rw [ih (acc + count) (fun x hx => h x (List.mem_cons_of_mem b hx))]
      simp [hA, add_assoc]
    · rw [hA] at hb
      cases hb

/-- The loop stops at the first brick whose count does not parse. -/
theorem healLoop_of_first_bad (pre post : List BrickHealInfo) (bad : BrickHealInfo)
    (err : GoError) (acc : Int)
    (hpre : ∀ b ∈ pre, (Atoi b.NumberOfEntries).2 = none)
    (hbad : (Atoi bad.NumberOfEntries).2 = some err) :
    healLoop (pre ++ bad :: post) acc = (-1, some err) := by
  induction pre generalizing acc with
  | nil =>
    rcases hA : Atoi bad.NumberOfEntries with ⟨v, _ | e⟩
    · rw [hA] at hbad
      cases hbad
    · rw [hA] at hbad
      cases hbad
      simp only [List.nil_append, healLoop, hA]
  | cons b rest ih =>
    have hb := hpre b (List.mem_cons_self b rest)
    rcases hA : Atoi b.NumberOfEntries with ⟨count, _ | e⟩
    · simp only [List.cons_append, healLoop, hA]
      exact ih _ (fun x hx => hpre x (List.mem_cons_of_mem b hx))
    · rw [hA] at hb
      cases hb

/-- A list with a brick that does not parse splits at the first such brick. -/
theorem exists_first_bad (bricks : List BrickHealInfo)
    (h : ∃ b ∈ bricks, (Atoi b.NumberOfEntries).2 ≠ none) :
    ∃ pre bad post err, bricks = pre ++ bad :: post ∧
      (∀ b ∈ pre, (Atoi b.NumberOfEntries).2 = none) ∧
      (Atoi bad.NumberOfEntries).2 = some err := by
  induction bricks with
  | nil =>
    obtain ⟨b, hb, _⟩ := h
    cases hb
  | cons b rest ih =>
    rcases hA : (Atoi b.NumberOfEntries).2 with _ | e
    · obtain ⟨x, hx, hxbad⟩ := h
      rcases List.mem_cons.mp hx with rfl | hx
      · exact absurd hA hxbad
      · obtain ⟨pre, bad, post, err, hsplit, hpre, hbad⟩ := ih ⟨x, hx, hxbad⟩
        refine ⟨b :: pre, bad, post, err, by rw [hsplit]; rfl, ?_, hbad⟩
        intro y hy
        rcases List.mem_cons.mp hy with rfl | hy
        · exact hA
        · exact hpre y hy
    · exact ⟨[], b, rest, e, rfl, fun _ hy => (List.not_mem_nil _ hy).elim, hA⟩

theorem ExecVolumeHealInfo_of_all_parse {S : Schema} (env : Env S) (n : String) (w : World)
    (buf : Bytes) (r : VolumeHealInfoXML)
    (h : env.Run env.GlusterCmd ["volume", "heal", n, "info", "--xml"] = (buf, none))
    (hd : env.VolumeHealInfoXMLUnmarshall buf = (r, none))
    (hall : ∀ b ∈ r.HealInfo.Bricks.Brick, (Atoi b.NumberOfEntries).2 = none) :
    (ExecVolumeHealInfo env n w).1 =
      (wrapInt (r.HealInfo.Bricks.Brick.map fun b => (Atoi b.NumberOfEntries).1).sum, none) := by
  have hl := healLoop_of_all_parse r.HealInfo.Bricks.Brick 0 hall
  rw [wrapInt_zero, zero_add] at hl
  rw [ExecVolumeHealInfo_of_ok env n w buf r _ h hd hl]

theorem ExecVolumeHealInfo_of_some_bad {S : Schema} (env : Env S) (n : String) (w : World)
    (buf : Bytes) (r : VolumeHealInfoXML)
    (h : env.Run env.GlusterCmd ["volume", "heal", n, "info", "--xml"] = (buf, none))
    (hd : env.VolumeHealInfoXMLUnmarshall buf = (r, none))
    (hbad : ∃ b ∈ r.HealInfo.Bricks.Brick, (Atoi b.NumberOfEntries).2 ≠ none) :
    ∃ err, (ExecVolumeHealInfo env n w).1 = (-1, some err) := by
  obtain ⟨pre, bad, post, err, hsplit, hpre, hb⟩ := exists_first_bad _ hbad
  have hl := healLoop_of_first_bad pre post bad err 0 hpre hb
  rw [← hsplit] at hl
  exact ⟨err, by rw [ExecVolumeHealInfo_of_loop_err env n w buf r _ err h hd hl]⟩

/-- C1, as the claim states it, fails: two counts that both parse but whose sum
leaves the range of `int` give the wrapped total, not their sum. -/
theorem heal_sum_overflows :
    ¬ (∀ (S : Schema) (env : Env S) (n : String) (w : World) (buf : Bytes)
        (r : VolumeHealInfoXML),
        env.Run env.GlusterCmd ["volume", "heal", n, "info", "--xml"] = (buf, none) →
        env.VolumeHealInfoXMLUnmarshall buf = (r, none) →
        (∀ b ∈ r.HealInfo.Bricks.Brick, (Atoi b.NumberOfEntries).2 = none) →
        (ExecVolumeHealInfo env n w).1 =
          ((r.HealInfo.Bricks.Brick.map fun b => (Atoi b.NumberOfEntries).1).sum, none)) := by
  intro h
  have hx := h sampleSchema (okEnv [7] [] ["9223372036854775807", "1"]) "gv0" World.empty [7]
    (healRecord ["9223372036854775807", "1"]) rfl rfl (by decide)
  revert hx
  decide

/-- C1, amended: when the tool ran without error, the decoder succeeded and
every brick's `NumberOfEntries` parses, `ExecVolumeHealInfo` returns a nil
error and the sum of the parsed counts reduced to the range of `int` by
two's-complement wraparound; whenever the sum fits in an `int` the value is
the sum itself (0 for no bricks). -/
theorem heal_returns_wrapped_sum {S : Schema} (env : Env S) (n : String) (w : World)
    (buf : Bytes) (r : VolumeHealInfoXML)
    (h : env.Run env.GlusterCmd ["volume", "heal", n, "info", "--xml"] = (buf, none))
    (hd : env.VolumeHealInfoXMLUnmarshall buf = (r, none))
    (hall : ∀ b ∈ r.HealInfo.Bricks.Brick, (Atoi b.NumberOfEntries).2 = none) :
    (ExecVolumeHealInfo env n w).1 =
      (wrapInt (r.HealInfo.Bricks.Brick.map fun b => (Atoi b.NumberOfEntries).1).sum, none) ∧
    (minInt ≤ (r.HealInfo.Bricks.Brick.map fun b => (Atoi b.NumberOfEntries).1).sum →
      (r.HealInfo.Bricks.Brick.map fun b => (Atoi b.NumberOfEntries).1).sum ≤ maxInt →
      (ExecVolumeHealInfo env n w).1 =
        ((r.HealInfo.Bricks.Brick.map fun b => (Atoi b.NumberOfEntries).1).sum, none)) := by
  rw [ExecVolumeHealInfo_of_all_parse env n w buf r h hd hall]
  refine ⟨rfl, fun h1 h2 => ?_⟩
  rw [wrapInt_of_fits _ h1 h2]

theorem heal_returns_wrapped_sum_witness :
    (ExecVolumeHealInfo (okEnv [7] [] ["3", "0", "12"]) "gv0" World.empty).1 = (15, none) ∧
    (ExecVolumeHealInfo (okEnv [7] [] []) "gv0" World.empty).1 = (0, none) :=
  ⟨(heal_returns_wrapped_sum (okEnv [7] [] ["3", "0", "12"]) "gv0" World.empty [7]
      (healRecord ["3", "0", "12"]) rfl rfl (by decide)).2 (by decide) (by decide),
    (heal_returns_wrapped_sum (okEnv [7] [] []) "gv0" World.empty [7]
      (healRecord []) rfl rfl (by decide)).2 (by decide) (by decide)⟩

/-- C2: when the tool ran without error, the decoder succeeded and some brick's
`NumberOfEntries` does not parse, `ExecVolumeHealInfo` returns `-1` with the
conversion error of the first such brick in document order, wherever that
brick stands. -/
theorem heal_fails_on_first_bad_count {S : Schema} (env : Env S) (n : String) (w : World)
    (buf : Bytes) (r : VolumeHealInfoXML)
    (h : env.Run env.GlusterCmd ["volume", "heal", n, "info", "--xml"] = (buf, none))
    (hd : env.VolumeHealInfoXMLUnmarshall buf = (r, none))
    (hbad : ∃ b ∈ r.HealInfo.Bricks.Brick, (Atoi b.NumberOfEntries).2 ≠ none) :
    ∃ pre bad post err, r.HealInfo.Bricks.Brick = pre ++ bad :: post ∧
      (∀ b ∈ pre, (Atoi b.NumberOfEntries).2 = none) ∧
      (Atoi bad.NumberOfEntries).2 = some err ∧
      (ExecVolumeHealInfo env n w).1 = (-1, some err) := by
  obtain ⟨pre, bad, post, err, hsplit, hpre, hb⟩ := exists_first_bad _ hbad
  refine ⟨pre, bad, post, err, hsplit, hpre, hb, ?_⟩
  have hl := healLoop_of_first_bad pre post bad err 0 hpre hb
  rw [← hsplit] at hl
  rw [ExecVolumeHealInfo_of_loop_err env n w buf r _ err h hd hl]

theorem heal_fails_on_first_bad_count_witness :
    ∃ pre bad post err,
      (healRecord ["3", "N/A", "12", "x"]).HealInfo.Bricks.Brick = pre ++ bad :: post ∧
      (∀ b ∈ pre, (Atoi b.NumberOfEntries).2 = none) ∧
      (Atoi bad.NumberOfEntries).2 = some err ∧
      (ExecVolumeHealInfo (okEnv [7] [] ["3", "N/A", "12", "x"]) "gv0" World.empty).1 =
        (-1, some err) :=
  heal_fails_on_first_bad_count (okEnv [7] [] ["3", "N/A", "12", "x"]) "gv0" World.empty [7]
    (healRecord ["3", "N/A", "12", "x"]) rfl rfl ⟨⟨"N/A"⟩, by decide, by decide⟩

/-! ## `Atoi` on decimal numerals -/

theorem maxUint64_eq : maxUint64 = 18446744073709551615 := by decide

theorem maxInt_eq : maxInt = 9223372036854775807 := by decide

theorem le_foldl_digits (cs : List Char) (n : Nat) :
    n ≤ cs.foldl (fun n c => n * 10 + (c.toNat - 48)) n := by
  induction cs generalizing n with
  | nil => exact Nat.le_refl n
  | cons c cs ih =>
    simp only [List.foldl_cons]
    have := ih (n * 10 + (c.toNat - 48))
    omega

/-- On digits whose value stays within `uint64` the digit loop returns that
value and no error. -/
theorem parseUintLoop_of_digits (cs : List Char) (n : Nat)
    (hd : ∀ c ∈ cs, c.isDigit = true)
    (hfit : cs.foldl (fun n c => n * 10 + (c.toNat - 48)) n ≤ maxUint64) :
    parseUintLoop cs n = (cs.foldl (fun n c => n * 10 + (c.toNat - 48)) n, none) := by
  induction cs generalizing n with
  | nil => rfl
  | cons c cs ih =>
    have hc := hd c (List.mem_cons_self c cs)
    simp only [List.foldl_cons] at hfit ⊢
    have hge := le_foldl_digits cs (n * 10 + (c.toNat - 48))
    rw [maxUint64_eq] at hfit
    have h1 : ¬ n ≥ maxUint64 / 10 + 1 := by
      rw [maxUint64_eq]
      omega
    have h2 : ¬ n * 10 + (c.toNat - 48) > maxUint64 := by
      rw [maxUint64_eq]
      omega
    simp only [parseUintLoop, hc, h1, h2, if_false, Bool.true_eq_false]
    exact ih _ (fun x hx => hd x (List.mem_cons_of_mem c hx)) (by rw [maxUint64_eq]; exact hfit)

/-- On a nonempty string of decimal digits whose value fits in an `int`, `Atoi`
returns that value and no error. -/
theorem Atoi_of_numeral (s : String) (hne : s.data ≠ [])
    (hd : ∀ c ∈ s.data, c.isDigit = true)
    (hfit : (decimalValue s.data : Int) ≤ maxInt) :
    Atoi s = ((decimalValue s.data : Int), none) := by
  rw [maxInt_eq] at hfit
  have hP : ParseUint s.data = (decimalValue s.data, none) := by
    unfold ParseUint
    rw [if_neg hne]
    exact parseUintLoop_of_digits s.data 0 hd (by rw [maxUint64_eq]; unfold decimalValue at hfit; omega)
  obtain ⟨c, t, hct⟩ := List.exists_cons_of_ne_nil hne
  have hc := hd c (by rw [hct]; exact List.mem_cons_self c t)
  have hplus : c ≠ '+' := by
    rintro rfl
    exact absurd hc (by decide)
  have hminus : c ≠ '-' := by
    rintro rfl
    exact absurd hc (by decide)
  unfold Atoi
  simp only [hne, if_false]
  have hhead : s.data.head? = some c := by rw [hct]; rfl
  simp only [hhead, Option.some.injEq, hplus, hminus, or_self, if_false, hP]
  simp [intSize]
  omega

/-! ## Order of the bricks, and the sentinel -/

/-- C3: for two decoded heal-info records whose brick sequences are
permutations of each other, `ExecVolumeHealInfo` returns the same integer: the
same total when every count parses, `-1` for both when some count does not;
and it returns a nil error for one exactly when it does for the other. -/
theorem heal_invariant_under_brick_order {S1 S2 : Schema} (env1 : Env S1) (env2 : Env S2)
    (n1 n2 : String) (w1 w2 : World) (buf1 buf2 : Bytes) (r1 r2 : VolumeHealInfoXML)
    (h1 : env1.Run env1.GlusterCmd ["volume", "heal", n1, "info", "--xml"] = (buf1, none))
    (hd1 : env1.VolumeHealInfoXMLUnmarshall buf1 = (r1, none))
    (h2 : env2.Run env2.GlusterCmd ["volume", "heal", n2, "info", "--xml"] = (buf2, none))
    (hd2 : env2.VolumeHealInfoXMLUnmarshall buf2 = (r2, none))
    (hperm : r1.HealInfo.Bricks.Brick.Perm r2.HealInfo.Bricks.Brick) :
    (ExecVolumeHealInfo env1 n1 w1).1.1 = (ExecVolumeHealInfo env2 n2 w2).1.1 ∧
    ((ExecVolumeHealInfo env1 n1 w1).1.2 = none ↔ (ExecVolumeHealInfo env2 n2 w2).1.2 = none) ∧
    ((∃ b ∈ r1.HealInfo.Bricks.Brick, (Atoi b.NumberOfEntries).2 ≠ none) →
      (ExecVolumeHealInfo env1 n1 w1).1.1 = -1 ∧ (ExecVolumeHealInfo env2 n2 w2).1.1 = -1) := by
  by_cases hall : ∀ b ∈ r1.HealInfo.Bricks.Brick, (Atoi b.NumberOfEntries).2 = none
  · have hall2 : ∀ b ∈ r2.HealInfo.Bricks.Brick, (Atoi b.NumberOfEntries).2 = none :=
      fun b hb => hall b (hperm.mem_iff.mpr hb)
    rw [ExecVolumeHealInfo_of_all_parse env1 n1 w1 buf1 r1 h1 hd1 hall,
      ExecVolumeHealInfo_of_all_parse env2 n2 w2 buf2 r2 h2 hd2 hall2]
    refine ⟨?_, Iff.rfl, ?_⟩
    · exact congrArg wrapInt (hperm.map fun b => (Atoi b.NumberOfEntries).1).sum_eq
    · rintro ⟨b, hb, hne⟩
      exact absurd (hall b hb) hne
  · have hbad1 : ∃ b ∈ r1.HealInfo.Bricks.Brick, (Atoi b.NumberOfEntries).2 ≠ none := by
      by_contra hno
      exact hall fun b hb => by
        by_contra hne
        exact hno ⟨b, hb, hne⟩
    have hbad2 : ∃ b ∈ r2.HealInfo.Bricks.Brick, (Atoi b.NumberOfEntries).2 ≠ none := by
      obtain ⟨b, hb, hne⟩ := hbad1
      exact ⟨b, hperm.mem_iff.mp hb, hne⟩
    obtain ⟨e1, he1⟩ := ExecVolumeHealInfo_of_some_bad env1 n1 w1 buf1 r1 h1 hd1 hbad1
    obtain ⟨e2, he2⟩ := ExecVolumeHealInfo_of_some_bad env2 n2 w2 buf2 r2 h2 hd2 hbad2
    rw [he1, he2]
    exact ⟨rfl, by simp, fun _ => ⟨rfl, rfl⟩⟩

theorem heal_invariant_under_brick_order_witness :
    (ExecVolumeHealInfo (okEnv [7] [] ["3", "0", "12"]) "gv0" World.empty).1.1 =
        (ExecVolumeHealInfo (okEnv [8] [] ["12", "3", "0"]) "gv1" World.empty).1.1 ∧
    (ExecVolumeHealInfo (okEnv [7] [] ["3", "0", "12"]) "gv0" World.empty).1.1 = 15 :=
  ⟨(heal_invariant_under_brick_order (okEnv [7] [] ["3", "0", "12"])
      (okEnv [8] [] ["12", "3", "0"]) "gv0" "gv1" World.empty World.empty [7] [8]
      (healRecord ["3", "0", "12"]) (healRecord ["12", "3", "0"]) rfl rfl rfl rfl
      (by decide)).1, rfl⟩

theorem sum_decimalValue_nonneg (bricks : List BrickHealInfo) :
    0 ≤ (bricks.map fun b => (decimalValue b.NumberOfEntries.data : Int)).sum := by
  induction bricks with
  | nil => simp
  | cons b rest ih =>
    simp only [List.map_cons, List.sum_cons]
    have : (0 : Int) ≤ (decimalValue b.NumberOfEntries.data : Int) := Int.ofNat_nonneg _
    omega

/-- When the numerals of all bricks sum to at most `maxInt`, `Atoi` returns the
value of each. -/
theorem Atoi_of_numerals (bricks : List BrickHealInfo)
    (hnum : ∀ b ∈ bricks, b.NumberOfEntries.data ≠ [] ∧
      ∀ c ∈ b.NumberOfEntries.data, c.isDigit = true)
    (hfit : (bricks.map fun b => (decimalValue b.NumberOfEntries.data : Int)).sum ≤ maxInt) :
    ∀ b ∈ bricks, Atoi b.NumberOfEntries = ((decimalValue b.NumberOfEntries.data : Int), none) := by
  induction bricks with
  | nil =>
    intro b hb
    cases hb
  | cons x rest ih =>
    simp only [List.map_cons, List.sum_cons] at hfit
    have hrest := sum_decimalValue_nonneg rest
    have hx : (0 : Int) ≤ (decimalValue x.NumberOfEntries.data : Int) := Int.ofNat_nonneg _
    intro b hb
    rcases List.mem_cons.mp hb with rfl | hb
    · exact Atoi_of_numeral _ (hnum _ (List.mem_cons_self _ rest)).1
        (hnum _ (List.mem_cons_self _ rest)).2 (by omega)
    · exact ih (fun y hy => hnum y (List.mem_cons_of_mem x hy)) (by omega) b hb

/-- C10: when the tool ran without error, the decoder succeeded, every brick's
`NumberOfEntries` is a nonempty string of decimal digits and the values sum to
at most the largest `int`, `ExecVolumeHealInfo` returns a nil error and that
sum, which is at least 0; so it does not return `-1`. -/
theorem heal_sentinel_unambiguous {S : Schema} (env : Env S) (n : String) (w : World)
    (buf : Bytes) (r : VolumeHealInfoXML)
    (h : env.Run env.GlusterCmd ["volume", "heal", n, "info", "--xml"] = (buf, none))
    (hd : env.VolumeHealInfoXMLUnmarshall buf = (r, none))
    (hnum : ∀ b ∈ r.HealInfo.Bricks.Brick, b.NumberOfEntries.data ≠ [] ∧
      ∀ c ∈ b.NumberOfEntries.data, c.isDigit = true)
    (hfit : (r.HealInfo.Bricks.Brick.map fun b =>
      (decimalValue b.NumberOfEntries.data : Int)).sum ≤ maxInt) :
    (ExecVolumeHealInfo env n w).1 =
      ((r.HealInfo.Bricks.Brick.map fun b =>
        (decimalValue b.NumberOfEntries.data : Int)).sum, none) ∧
    0 ≤ (ExecVolumeHealInfo env n w).1.1 ∧
    (ExecVolumeHealInfo env n w).1.1 ≠ -1 := by
  have hA := Atoi_of_numerals r.HealInfo.Bricks.Brick hnum hfit
  have hall : ∀ b ∈ r.HealInfo.Bricks.Brick, (Atoi b.NumberOfEntries).2 = none :=
    fun b hb => by rw [hA b hb]
  have hmap : (r.HealInfo.Bricks.Brick.map fun b => (Atoi b.NumberOfEntries).1) =
      r.HealInfo.Bricks.Brick.map fun b => (decimalValue b.NumberOfEntries.data : Int) :=
    List.map_congr_left fun b hb => by rw [hA b hb]
  have hnonneg := sum_decimalValue_nonneg r.HealInfo.Bricks.Brick
  have hmin : minInt ≤ (r.HealInfo.Bricks.Brick.map fun b =>
      (decimalValue b.NumberOfEntries.data : Int)).sum :=
    le_trans (by decide) hnonneg
  rw [ExecVolumeHealInfo_of_all_parse env n w buf r h hd hall, hmap,
    wrapInt_of_fits _ hmin hfit]
  refine ⟨rfl, hnonneg, ?_⟩
  show (r.HealInfo.Bricks.Brick.map fun b =>
      (decimalValue b.NumberOfEntries.data : Int)).sum ≠ -1
  omega

theorem heal_sentinel_unambiguous_witness :
    (ExecVolumeHealInfo (okEnv [7] [] ["3", "0", "0012"]) "gv0" World.empty).1 = (15, none) ∧
    0 ≤ (ExecVolumeHealInfo (okEnv [7] [] ["3", "0", "0012"]) "gv0" World.empty).1.1 ∧
    (ExecVolumeHealInfo (okEnv [7] [] ["3", "0", "0012"]) "gv0" World.empty).1.1 ≠ -1 :=
  heal_sentinel_unambiguous (okEnv [7] [] ["3", "0", "0012"]) "gv0" World.empty [7]
    (healRecord ["3", "0", "0012"]) rfl rfl (by decide) (by decide)

end GlusterExporter
